import Mathlib

/-!
Shallow embedding of the authentication and session-lifecycle core of the
chat-service backend (src/auth.rs, src/jwt.rs), together with theorems
checking the specification claims against it.

Modelling conventions:
* `chrono::DateTime<Utc>` values are integer milliseconds since the Unix
  epoch (`Int`); `DateTime::timestamp()` is floor division by 1000
  (`Int.fdiv`), and `NaiveDateTime::from_timestamp_millis i` keeps `i`
  as milliseconds, exactly as in chrono.
* SurrealDB record ids (`Thing`) are abstracted to `Nat`, one counter per
  store; the server assigns fresh ids on `create`.
* A compact JWT string is abstracted to its parsed form `Token`:
  the serialized payload plus the identity of the HMAC key that signed it
  (the two signing secrets are distinct, so a signature verifies under a
  kind iff the token was produced with that kind).  String-level parse
  failures live outside this abstraction and are noted where relevant.
* jsonwebtoken `Validation::new(HS256)` validates the signature and the
  `exp` claim (with the default leeway of 60 seconds) against the raw
  wire integer, before the claims struct is deserialized.
-/

namespace ChatBackend

/-- `JwtKind` from src/auth.rs: the two token kinds. -/
inductive JwtKind where
  | access
  | refresh
deriving DecidableEq, Repr, BEq

/-- `JwtKind::expiry` from src/auth.rs: Access lives 10 minutes, Refresh 60
minutes.  Expressed in milliseconds, matching the `DateTime` model. -/
def JwtKind.expiryMs : JwtKind → Int
  | .access => 10 * 60 * 1000
  | .refresh => 60 * 60 * 1000

/-- Default `leeway` (seconds) of jsonwebtoken `Validation::new`. -/
def leeway : Int := 60

/-- `Claims_` from src/auth.rs, after serde `flatten` of the inner `Claims`:
`exp` and `iat` are `DateTime<Utc>` (modelled as epoch milliseconds),
`uid` the owner id, `jti` the ledger record id, `sub` the kind. -/
structure Claims_ where
  exp : Int
  iat : Int
  uid : Nat
  jti : Nat
  sub : JwtKind
deriving DecidableEq, Repr, BEq

/-- The JSON payload embedded in a signed token: `exp` and `iat` are the
integers actually written on the wire by `jwt_numeric_date::serialize`. -/
structure WirePayload where
  exp : Int
  iat : Int
  uid : Nat
  jti : Nat
  sub : JwtKind
deriving DecidableEq, Repr, BEq

/-- Serialization of `Claims_` (serde with `jwt_numeric_date`):
`serialize` writes `date.timestamp()`, i.e. whole Unix SECONDS. -/
def serializeClaims (c : Claims_) : WirePayload :=
  { exp := c.exp.fdiv 1000
    iat := c.iat.fdiv 1000
    uid := c.uid
    jti := c.jti
    sub := c.sub }

/-- Deserialization of `Claims_` (serde with `jwt_numeric_date`):
`deserialize` feeds the wire integer to
`NaiveDateTime::from_timestamp_millis`, i.e. reads it as MILLISECONDS. -/
def deserializeClaims (w : WirePayload) : Claims_ :=
  { exp := w.exp
    iat := w.iat
    uid := w.uid
    jti := w.jti
    sub := w.sub }

/-- A signed compact token: the serialized payload and the kind whose HMAC
secret produced the signature. -/
structure Token where
  payload : WirePayload
  sig : JwtKind
deriving DecidableEq, Repr, BEq

/-- `jsonwebtoken::encode` as used by `JwtKind::make`: serialize the claims
and sign with the key selected by the kind. -/
def encodeJwt (k : JwtKind) (c : Claims_) : Token :=
  { payload := serializeClaims c, sig := k }

/-- jsonwebtoken `exp` validation: the raw wire value (Unix seconds) must
not lie strictly before `now - leeway`. -/
def expOk (expWire nowMs : Int) : Bool :=
  nowMs.fdiv 1000 - leeway ≤ expWire

/-- `JwtKind::demake` from src/auth.rs: verify the signature with the key of
this kind and validate `exp`, then deserialize the claims. -/
def JwtKind.demake (k : JwtKind) (t : Token) (nowMs : Int) : Option Claims_ :=
  if t.sig = k ∧ expOk t.payload.exp nowMs then
    some (deserializeClaims t.payload)
  else
    none

/-- `JwtKind::demake_independent` from src/auth.rs: signature validation
disabled, `exp`/`nbf` validation disabled; just deserialize the payload.
(String-level parse failures are outside the `Token` abstraction.) -/
def demake_independent (t : Token) : Claims_ :=
  deserializeClaims t.payload

/-- `Jwt` from src/auth.rs: the persisted token ledger record. -/
structure Jwt where
  id : Option Nat
  kind : JwtKind
  uid : Nat
  issued_at : Int
  active : Bool
deriving DecidableEq, Repr, BEq

/-- `Jwt::expired` from src/auth.rs: past its lifetime, or deactivated. -/
def Jwt.expired (j : Jwt) (nowMs : Int) : Bool :=
  decide (nowMs > j.issued_at + j.kind.expiryMs) || !j.active

/-- `Jwt::check` from src/auth.rs: keep the record only when not expired. -/
def Jwt.check (j : Jwt) (nowMs : Int) : Option Jwt :=
  if j.expired nowMs then none else some j

/-- `User` rows as touched by login/registration in src/auth.rs. -/
structure User where
  id : Nat
  email : String
  password_hash : String
  tagName : String
  tagDisc : List Nat
  display_name : String
deriving DecidableEq, Repr, BEq

/-- The SurrealDB state the auth core reads and writes: the `jwt` table
(keyed by record id) and the `user` table, each with a fresh-id counter
for server-assigned ids. -/
structure Store where
  jwts : Nat → Option Jwt
  nextJwtId : Nat
  users : List User
  nextUserId : Nat

/-- `surreal.create("jwt").content(...)`: insert a record under a fresh
server-assigned id and return it (with its id filled in). -/
def Store.createJwt (s : Store) (k : JwtKind) (uid : Nat) (nowMs : Int) :
    Jwt × Store :=
  let j : Jwt := { id := some s.nextJwtId, kind := k, uid := uid
                   issued_at := nowMs, active := true }
  (j, { s with
          jwts := fun i => if i = s.nextJwtId then some j else s.jwts i
          nextJwtId := s.nextJwtId + 1 })

/-- `surreal.update(id).content(j)`: replace the record stored under `id`. -/
def Store.updateJwt (s : Store) (id : Nat) (j : Jwt) : Store :=
  { s with jwts := fun i => if i = id then some j else s.jwts i }

/-- `JwtKind::make` from src/auth.rs: create the ledger record, then encode
a token whose claims carry `iat = now`, `exp = iat + kind lifetime`,
`jti` = the created record id, `sub` = the kind. -/
def JwtKind.make (k : JwtKind) (s : Store) (nowMs : Int) (uid : Nat) :
    Token × Store :=
  let (jw, s') := s.createJwt k uid nowMs
  let jti := jw.id.getD 0
  let claims : Claims_ :=
    { exp := nowMs + k.expiryMs, iat := nowMs, uid := uid, jti := jti, sub := k }
  (encodeJwt k claims, s')

/-- `Tokens` from src/auth.rs: the access/refresh pair returned to clients. -/
structure Tokens where
  access : Token
  refresh : Token
deriving DecidableEq, Repr, BEq

/-- `make_jwts` from src/auth.rs: issue an Access token, then a Refresh
token, for the same owner. -/
def make_jwts (s : Store) (nowMs : Int) (uid : Nat) : Tokens × Store :=
  let (a, s1) := JwtKind.access.make s nowMs uid
  let (r, s2) := JwtKind.refresh.make s1 nowMs uid
  ({ access := a, refresh := r }, s2)

/-- The error values `refresh` propagates with `?` (anyhow errors, which
tide renders as 500 Internal Server Error responses). -/
inductive RErr where
  | tokenDemake
  | tokenNoExist
deriving DecidableEq, Repr, BEq

/-- `refresh` from src/auth.rs: verify as Refresh-kind, select the ledger
record by `jti` (absence is an error, not `None`), `check` it, require
Refresh kind, deactivate it, then issue a fresh pair. -/
def refresh (s : Store) (t : Token) (nowMs : Int) :
    Except RErr (Option Tokens) × Store :=
  match JwtKind.refresh.demake t nowMs with
  | none => (.error .tokenDemake, s)
  | some claims =>
    match s.jwts claims.jti with
    | none => (.error .tokenNoExist, s)
    | some jwt =>
      match jwt.check nowMs with
      | none => (.ok none, s)
      | some jwt =>
        if jwt.kind = JwtKind.refresh then
          let s1 := s.updateJwt (jwt.id.getD 0) { jwt with active := false }
          let (tks, s2) := make_jwts s1 nowMs jwt.uid
          (.ok (some tks), s2)
        else
          (.ok none, s)

/-- `is_active` from src/auth.rs: recover `jti` by the unverified decode,
select the record, and test `and_then(Jwt::check).is_some_and(!expired)`. -/
def is_active (s : Store) (t : Token) (nowMs : Int) : Bool :=
  let claims := demake_independent t
  match (s.jwts claims.jti).bind (fun j => j.check nowMs) with
  | none => false
  | some j => !j.expired nowMs

/-- Outcome of the POST /auth/refresh endpoint as produced by
`http_refresh` in src/auth.rs. -/
inductive HttpRefreshOutcome where
  | ok (tks : Tokens)
  | badRequest
  | internalError (e : RErr)
deriving DecidableEq, Repr, BEq

/-- `http_refresh` from src/auth.rs: `Ok(Some)` becomes 200 with the pair,
`Ok(None)` becomes 400 Bad Request, and an `Err` propagates out of the
endpoint (tide renders anyhow-converted errors as 500). -/
def http_refresh (s : Store) (t : Token) (nowMs : Int) :
    HttpRefreshOutcome × Store :=
  match refresh s t nowMs with
  | (.error e, s') => (.internalError e, s')
  | (.ok none, s') => (.badRequest, s')
  | (.ok (some tks), s') => (.ok tks, s')

/-- Model of `bcrypt::hash` (external primitive): an injective tagged image
of the password; plaintext is never stored as-is. -/
def bcrypt_hash (password : String) : String :=
  "bcrypt-2b-10-" ++ password

/-- Model of `bcrypt::verify` (external primitive): a password verifies
against exactly the hashes of that password. -/
def bcrypt_verify (password hash : String) : Bool :=
  hash == bcrypt_hash password

/-- `login` from src/auth.rs: select `password_hash, id` by email; if no
row, fail; else `bcrypt::verify`; on match issue a pair via `make_jwts`.
Both failure paths return `None` with the store untouched. -/
def login (s : Store) (email password : String) (nowMs : Int) :
    Option Tokens × Store :=
  match s.users.find? (fun u => u.email == email) with
  | none => (none, s)
  | some u =>
    if bcrypt_verify password u.password_hash then
      let (tks, s') := make_jwts s nowMs u.id
      (some tks, s')
    else
      (none, s)

/-- `make_tag` from src/auth.rs: collect the discriminators already used
with this display name, then draw random candidates until one is free.
The random stream is passed in as `candidates`; an exhausted stream models
the unbounded loop not returning (cut off by the 10 s timeout wrapped
around the call in `register`). -/
def make_tag (s : Store) (tag : String) (candidates : List (List Nat)) :
    Option (List Nat) :=
  let reals := (s.users.filter (fun u => u.tagName == tag)).map User.tagDisc
  candidates.find? (fun c => !reals.contains c)

/-- `register` from src/auth.rs: hash the password, refuse if the email is
already present (no writes on that path), allocate a tag discriminator
(timeout is an error), create the user row, then issue a pair. -/
def register (s : Store) (email password tag display_name : String)
    (candidates : List (List Nat)) (nowMs : Int) :
    Except Unit (Option Tokens) × Store :=
  let password_hash := bcrypt_hash password
  if !(s.users.filter (fun u => u.email == email)).isEmpty then
    (.ok none, s)
  else
    match make_tag s tag candidates with
    | none => (.error (), s)
    | some disc =>
      let u : User := { id := s.nextUserId, email := email
                        password_hash := password_hash, tagName := tag
                        tagDisc := disc, display_name := display_name }
      let s1 := { s with users := s.users ++ [u], nextUserId := s.nextUserId + 1 }
      let (tks, s2) := make_jwts s1 nowMs u.id
      (.ok (some tks), s2)

/-- Outcome of one pass of the middleware `handle` in src/jwt.rs. -/
inductive MwOutcome where
  /-- `next.run(req)` was invoked, with these claims attached (if any). -/
  | next (attached : Option Claims_)
  /-- The request was rejected with 401 Unauthorized (either a direct
  `Response::new(Unauthorized)` or an unauthorized `tide::Error`). -/
  | unauthorized
  /-- An error from `is_active` propagated with `?` (rendered 500). -/
  | storeError
  /-- The byte-index slice `value["Bearer ".len()..]` was out of bounds. -/
  | panicked
deriving DecidableEq, Repr, BEq

/-- Model of the str method `starts_with` of Rust on ASCII header values:
the first characters of `v` are exactly `p`. -/
def rustStartsWith (v p : String) : Bool :=
  v.data.take p.data.length == p.data

/-- The slice `&value["Bearer ".len()..]` of src/jwt.rs line 84: in-bounds
(length at least 7) yields the suffix; otherwise Rust panics, modelled as
`none`. -/
def bearerSlice (value : String) : Option String :=
  if 7 ≤ value.data.length then some ⟨value.data.drop 7⟩ else none

/-- The scheme prefix tested by `starts_with` in src/jwt.rs line 80. -/
def bearerStr : String := "Bearer"

/-- `JwtAuthenticationDecoder::handle` from src/jwt.rs, instantiated with
the validation and Access decoding key of `make_tide_authware`
(src/auth.rs).  `values` is the list of Authorization header values
(`none` when the header is absent); `parseToken` is the string-level JWT
parser (its failure makes `is_active` return an error, which `?`
propagates out of the middleware). -/
def handle (s : Store) (values : Option (List String))
    (parseToken : String → Option Token) (nowMs : Int) : MwOutcome :=
  match values with
  | none => .next none
  | some vals =>
    if vals.isEmpty then .next none
    else if vals.length > 1 then .unauthorized
    else
      match vals with
      | [] => .next none
      | value :: _ =>
        if !rustStartsWith value bearerStr then .next none
        else
          match bearerSlice value with
          | none => .panicked
          | some tokenStr =>
            match parseToken tokenStr with
            | none => .storeError
            | some token =>
              if is_active s token nowMs then
                match JwtKind.access.demake token nowMs with
                | none => .unauthorized
                | some c => .next (some c)
              else .unauthorized

/-!
Interleaving model for the concurrency claim.

`refresh` suspends exactly at its store round trips (select, update,
create, create).  A thread is a program counter over those suspension
points; local computation between two round trips happens inside a single
step.  Two threads presenting the same token are interleaved by a
schedule of booleans (`true` steps thread 1).
-/

/-- Program counter of one in-flight `refresh(t)` call, between store
round trips. -/
inductive TState where
  /-- Not yet started: about to demake locally and then select. -/
  | start
  /-- The select round trip returned this snapshot of the record. -/
  | gotRecord (c : Claims_) (jwt : Option Jwt)
  /-- The deactivating update was written; about to create the Access
  record. -/
  | deactivated (uid : Nat)
  /-- The Access record was created; about to create the Refresh record. -/
  | madeAccess (uid : Nat) (access : Token)
  /-- The call returned. -/
  | finished (r : Except RErr (Option Tokens))
deriving Repr

/-- One store round trip of `refresh t` (src/auth.rs lines 356-373): the
local code between two awaits runs atomically with the round trip that
ends it.  The check of the record uses the snapshot obtained by the
earlier select, exactly as in the source. -/
def stepRefresh (t : Token) (nowMs : Int) : TState × Store → TState × Store
  | (.start, s) =>
    match JwtKind.refresh.demake t nowMs with
    | none => (.finished (.error .tokenDemake), s)
    | some c => (.gotRecord c (s.jwts c.jti), s)
  | (.gotRecord _ none, s) => (.finished (.error .tokenNoExist), s)
  | (.gotRecord _ (some jwt), s) =>
    match jwt.check nowMs with
    | none => (.finished (.ok none), s)
    | some jwt =>
      if jwt.kind = JwtKind.refresh then
        (.deactivated jwt.uid,
         s.updateJwt (jwt.id.getD 0) { jwt with active := false })
      else
        (.finished (.ok none), s)
  | (.deactivated uid, s) =>
    let (a, s') := JwtKind.access.make s nowMs uid
    (.madeAccess uid a, s')
  | (.madeAccess uid a, s) =>
    let (r, s') := JwtKind.refresh.make s nowMs uid
    (.finished (.ok (some { access := a, refresh := r })), s')
  | (.finished r, s) => (.finished r, s)

/-- Run two concurrent `refresh t` calls under a schedule: `true` lets
thread 1 take its next store round trip, `false` thread 2. -/
def runSched (t : Token) (nowMs : Int) :
    List Bool → TState × TState × Store → TState × TState × Store
  | [], st => st
  | b :: rest, (t1, t2, s) =>
    if b then
      let (t1', s') := stepRefresh t nowMs (t1, s)
      runSched t nowMs rest (t1', t2, s')
    else
      let (t2', s') := stepRefresh t nowMs (t2, s)
      runSched t nowMs rest (t1, t2', s')

/-- Did this thread finish with a successful new pair? -/
def TState.succeeded : TState → Bool
  | .finished (.ok (some _)) => true
  | _ => false

/-! Concrete inputs used by witnesses and counterexamples. -/

/-- A store with empty tables. -/
def emptyStore : Store :=
  { jwts := fun _ => none, nextJwtId := 0, users := [], nextUserId := 0 }

/-- A live Refresh ledger record for user 7, issued at the epoch. -/
def r0 : Jwt :=
  { id := some 0, kind := .refresh, uid := 7, issued_at := 0, active := true }

/-- A store holding exactly the record `r0` under id 0. -/
def s0 : Store :=
  { jwts := fun i => if i = 0 then some r0 else none
    nextJwtId := 1, users := [], nextUserId := 0 }

/-- The refresh token issued together with `r0`: signed with the Refresh
key, carrying `jti = 0` and wire `exp` 3600 Unix seconds. -/
def t0 : Token :=
  { payload := { exp := 3600, iat := 0, uid := 7, jti := 0, sub := .refresh }
    sig := .refresh }

/-- The racing schedule: both threads perform their select round trip
before either performs the deactivating update. -/
def badSchedule : List Bool :=
  [true, false, true, true, true, false, false, false]

/-- The stored email of the registered example user. -/
def emailAlice : String := "alice@example.com"

/-- The password of the registered example user. -/
def pwAlice : String := "secret123"

/-- A registered user row. -/
def alice : User :=
  { id := 1, email := emailAlice, password_hash := bcrypt_hash pwAlice
    tagName := "alice", tagDisc := [1, 2, 3, 4], display_name := "Alice" }

/-- A store whose user table holds exactly `alice`. -/
def storeAlice : Store :=
  { jwts := fun _ => none, nextJwtId := 0, users := [alice], nextUserId := 2 }

/-- Claims issued at a realistic instant (milliseconds), used to exercise
the codec round trip. -/
def c3c : Claims_ :=
  { exp := 1700000600000, iat := 1700000000000, uid := 5, jti := 3, sub := .access }

/-- A well-signed, unexpired Refresh token whose `jti` (0) references no
ledger record in `emptyStore`. -/
def t7 : Token :=
  { payload := { exp := 3600, iat := 0, uid := 9, jti := 0, sub := .refresh }
    sig := .refresh }

/-- C5: `is_active` recovers the `jti` of the token via the unverified
decode path and answers from the ledger alone: it returns true exactly
when the referenced record exists, is active, and `now` is at most
`issued_at` plus the lifetime of the kind of the record — hence false
immediately after deactivation regardless of expiry. -/
theorem C5_is_active_ledger (s : Store) (t : Token) (now : Int) :
    is_active s t now = true ↔
      ∃ j, s.jwts (demake_independent t).jti = some j ∧
        j.active = true ∧ now ≤ j.issued_at + j.kind.expiryMs := by
  unfold is_active
  cases h : s.jwts (demake_independent t).jti with
  | none => simp [h]
  | some j =>
    simp only [h, Option.some_bind, Jwt.check, Jwt.expired]
    by_cases hact : j.active
    · by_cases hlate : now > j.issued_at + j.kind.expiryMs
      · simp [hact, hlate]
      · simp [hact, hlate]
        omega
    · simp [hact]

/-- C6: header dispatch of the authentication middleware: an absent
Authorization header passes through unauthenticated; more than one value
is rejected with an unauthorized response; exactly one value without the
Bearer scheme prefix is ignored and passes through unauthenticated. -/
theorem C6_header_dispatch (s : Store) (parse : String → Option Token)
    (now : Int) :
    handle s none parse now = .next none ∧
    (∀ v₁ v₂ rest, handle s (some (v₁ :: v₂ :: rest)) parse now = .unauthorized) ∧
    ∀ v, rustStartsWith v bearerStr = false →
      handle s (some [v]) parse now = .next none := by
  refine ⟨rfl, fun v₁ v₂ rest => ?_, fun v hv => ?_⟩
  · simp [handle]
  · simp [handle, hv]

/-- Witness for C6 at concrete header values. -/
theorem C6_header_dispatch_witness :
    handle emptyStore none (fun _ => none) 0 = .next none ∧
    handle emptyStore (some ["Basic x", "Bearer y"]) (fun _ => none) 0 =
      .unauthorized ∧
    rustStartsWith "Token abc" bearerStr = false ∧
    handle emptyStore (some ["Token abc"]) (fun _ => none) 0 = .next none :=
  ⟨(C6_header_dispatch emptyStore (fun _ => none) 0).1,
   (C6_header_dispatch emptyStore (fun _ => none) 0).2.1 "Basic x" "Bearer y" [],
   by decide,
   (C6_header_dispatch emptyStore (fun _ => none) 0).2.2 "Token abc" (by decide)⟩

/-- C10: the claim that bearer-token extraction never panics fails on the
code: a single Authorization value that is exactly the string Bearer
passes the `starts_with` test but is shorter than the sliced prefix
`Bearer` plus a space, so the byte slice is out of bounds and handling
panics. -/
theorem C10_bearer_slice_panics :
    handle emptyStore (some [bearerStr]) (fun _ => none) 0 = .panicked := by
  decide

/-- C8: login failures are indistinguishable: an email with no stored user
and an existing email with a wrong password both return the same `None`
failure with the store untouched. -/
theorem C8_login_indistinguishable (s : Store) (now : Int)
    (e₁ p₁ e₂ p₂ : String) (u : User)
    (h₁ : s.users.find? (fun w => w.email == e₁) = none)
    (h₂ : s.users.find? (fun w => w.email == e₂) = some u)
    (h₃ : bcrypt_verify p₂ u.password_hash = false) :
    login s e₁ p₁ now = (none, s) ∧ login s e₂ p₂ now = (none, s) ∧
    login s e₁ p₁ now = login s e₂ p₂ now := by
  refine ⟨?_, ?_, ?_⟩
  · simp [login, h₁]
  · simp [login, h₂, h₃]
  · simp [login, h₁, h₂, h₃]

/-- Witness for C8: no user with the probed email versus `alice` with a
wrong password. -/
theorem C8_login_indistinguishable_witness :
    login storeAlice "nobody@example.com" "anything" 0 = (none, storeAlice) ∧
    login storeAlice emailAlice "wrong-password" 0 = (none, storeAlice) ∧
    login storeAlice "nobody@example.com" "anything" 0 =
      login storeAlice emailAlice "wrong-password" 0 :=
  C8_login_indistinguishable storeAlice 0 "nobody@example.com" "anything"
    emailAlice "wrong-password" alice (by decide) (by decide) (by decide)

/-- C9: registration with an email already present returns the
already-exists `None` outcome and leaves the store unchanged: no user row
and no token records are created. -/
theorem C9_register_duplicate_atomic (s : Store)
    (email pw tag dn : String) (cands : List (List Nat)) (now : Int)
    (h : (s.users.filter (fun w => w.email == email)).isEmpty = false) :
    register s email pw tag dn cands now = (.ok none, s) := by
  simp [register, h]

/-- Witness for C9: re-registering the email of `alice` changes nothing. -/
theorem C9_register_duplicate_atomic_witness :
    register storeAlice emailAlice "pw2" "alice2" "Alice2" [[5, 6, 7, 8]] 0 =
      (.ok none, storeAlice) :=
  C9_register_duplicate_atomic storeAlice emailAlice "pw2" "alice2" "Alice2"
    [[5, 6, 7, 8]] 0 (by decide)

/-- C3: the claimed codec round trip fails on the code: encoding writes
`iat`/`exp` as Unix seconds (`DateTime::timestamp`), but decoding feeds
the wire integer to `from_timestamp_millis`, so the decoded instants are
the originals divided by 1000.  Decoding the freshly encoded `c3c` with
the matching key while unexpired returns different claims, with `iat`
1700000000 milliseconds instead of 1700000000000. -/
theorem C3_roundtrip_millis_bug :
    JwtKind.access.demake (encodeJwt .access c3c) 1700000000000 =
      some { exp := 1700000600, iat := 1700000000, uid := 5, jti := 3
             sub := .access } ∧
    JwtKind.access.demake (encodeJwt .access c3c) 1700000000000 ≠ some c3c := by
  constructor
  · rfl
  · intro h
    have : (1700000000 : Int) = 1700000000000 := congrArg
      (fun o => (Option.map Claims_.iat o).getD 0) h
    omega

/-- C4: at issuance the invariant holds on the wire — the access token of a
successful login embeds the id of the user and `exp - iat` of exactly 600
Unix seconds (3600 for the refresh token) — but the claimed property of
the DECODED claims fails: the decode path reads the wire seconds as
milliseconds, so the decoded `exp - iat` is 600 milliseconds, not 600
seconds. -/
theorem C4_decoded_lifetime_bug :
    ((login storeAlice emailAlice pwAlice 0).1.map
        (fun tks => tks.access.payload.uid) = some 1) ∧
    ((login storeAlice emailAlice pwAlice 0).1.map
        (fun tks => tks.access.payload.exp - tks.access.payload.iat) =
      some 600) ∧
    ((login storeAlice emailAlice pwAlice 0).1.map
        (fun tks => tks.refresh.payload.exp - tks.refresh.payload.iat) =
      some 3600) ∧
    ((login storeAlice emailAlice pwAlice 0).1.map
        (fun tks => (JwtKind.access.demake tks.access 0).map
          (fun c => c.exp - c.iat)) = some (some 600)) ∧
    ((login storeAlice emailAlice pwAlice 0).1.map
        (fun tks => (JwtKind.refresh.demake tks.refresh 0).map
          (fun c => c.exp - c.iat)) = some (some 3600)) ∧
    (600 : Int) ≠ 600 * 1000 := by
  refine ⟨rfl, rfl, rfl, rfl, rfl, by omega⟩

/-- C7 counterexample: a well-signed, unexpired Refresh token referencing
a nonexistent ledger record makes `refresh` propagate an error with the
question-mark operator, so POST /auth/refresh surfaces an internal server
error, not the claimed 400. -/
theorem C7_counterexample :
    (http_refresh emptyStore t7 0).1 = .internalError .tokenNoExist ∧
    (http_refresh emptyStore t7 0).1 ≠ .badRequest := by
  decide

/-- C7 amended: POST /auth/refresh answers 400 exactly when the token
verifies as Refresh-kind and its record exists but fails `check`
(inactive or past its lifetime) or is of the wrong kind; a token that
fails verification (malformed, bad signature, expired) or references no
record propagates as an error rendered 500, not 400. -/
theorem C7_refresh_status_amended (s : Store) (t : Token) (now : Int) :
    ((http_refresh s t now).1 = .badRequest ↔
      ∃ c j, JwtKind.refresh.demake t now = some c ∧ s.jwts c.jti = some j ∧
        (j.check now = none ∨ j.kind ≠ .refresh)) ∧
    ((http_refresh s t now).1 = .internalError .tokenDemake ↔
      JwtKind.refresh.demake t now = none) ∧
    ((http_refresh s t now).1 = .internalError .tokenNoExist ↔
      ∃ c, JwtKind.refresh.demake t now = some c ∧ s.jwts c.jti = none) := by
  unfold http_refresh refresh
  cases hd : JwtKind.refresh.demake t now with
  | none => simp
  | some c =>
    cases hr : s.jwts c.jti with
    | none => simp [hd, hr]
    | some j =>
      by_cases he : j.expired now
      · have hc : j.check now = none := by simp [Jwt.check, he]
        simp [hd, hr, hc]
      · have hc : j.check now = some j := by simp [Jwt.check, he]
        cases hkind : j.kind with
        | access => simp [hd, hr, hc, hkind]
        | refresh => simp [hd, hr, hc, hkind]

/-- C2: the claimed atomic compare-and-set behaviour fails on the code:
`refresh` reads the record, checks the snapshot locally, and only then
writes the deactivation, so two concurrent calls with the same token can
both observe `active = true` before either write.  Under the schedule in
which both threads perform their select before either update, both calls
finish with a fresh pair: two successes from one consumed token. -/
theorem C2_double_refresh_both_succeed :
    ((runSched t0 0 badSchedule (.start, .start, s0)).1).succeeded = true ∧
    ((runSched t0 0 badSchedule (.start, .start, s0)).2.1).succeeded = true := by
  decide

/-- C1: sequential refresh rotation is single-use.  For any store holding
a live, unexpired Refresh record `rec0` under id `j0` and a matching
well-signed refresh token `t` with `jti = j0`, the first `refresh` call
succeeds, the post-state has the record `j0` deactivated, the refresh
token of the returned pair carries a `jti` different from `j0`, and an
immediately repeated `refresh` with the same token returns the
revoked/inactive `Ok None` outcome (rendered 400), not a second pair. -/
theorem C1_refresh_rotation_single_use
    (s : Store) (t : Token) (now : Int) (j0 : Nat) (rec0 : Jwt)
    (hfresh : ∀ i, s.nextJwtId ≤ i → s.jwts i = none)
    (hrec : s.jwts j0 = some rec0)
    (hid : rec0.id = some j0)
    (hkind : rec0.kind = .refresh)
    (hactive : rec0.active = true)
    (hlife : now ≤ rec0.issued_at + JwtKind.refresh.expiryMs)
    (hsig : t.sig = .refresh)
    (hjti : t.payload.jti = j0)
    (hexp : expOk t.payload.exp now = true) :
    ∃ tks s',
      refresh s t now = (.ok (some tks), s') ∧
      (s'.jwts j0).map Jwt.active = some false ∧
      tks.refresh.payload.jti ≠ j0 ∧
      refresh s' t now = (.ok none, s') := by
  have hj0 : j0 < s.nextJwtId := by
    by_contra hcon
    push_neg at hcon
    have hnone := hfresh j0 hcon
    rw [hrec] at hnone
    exact Option.noConfusion hnone
  have hdemake : JwtKind.refresh.demake t now =
      some (deserializeClaims t.payload) := by
    simp [JwtKind.demake, hsig, hexp]
  have hjti2 : (deserializeClaims t.payload).jti = j0 := hjti
  have hnotexp : rec0.expired now = false := by
    simp only [Jwt.expired, hactive, hkind, Bool.not_true, Bool.or_false,
      decide_eq_false_iff_not, not_lt]
    exact hlife
  have hcheck : rec0.check now = some rec0 := by
    simp [Jwt.check, hnotexp]
  set rec1 : Jwt := { id := some j0, kind := .refresh, uid := rec0.uid
                      issued_at := rec0.issued_at, active := false } with hrec1
  set s1 : Store := s.updateJwt j0 rec1 with hs1
  have h1 : refresh s t now =
      (.ok (some (make_jwts s1 now rec0.uid).1), (make_jwts s1 now rec0.uid).2) := by
    simp [refresh, hdemake, hjti2, hrec, hcheck, hkind, hid]
  have hnext1 : s1.nextJwtId = s.nextJwtId := rfl
  have hjti_r : ((make_jwts s1 now rec0.uid).1).refresh.payload.jti =
      s1.nextJwtId + 1 := rfl
  have hpast : (make_jwts s1 now rec0.uid).2.jwts j0 = s1.jwts j0 := by
    show (if j0 = s1.nextJwtId + 1 then _ else
           if j0 = s1.nextJwtId then _ else s1.jwts j0) = s1.jwts j0
    rw [if_neg (by omega), if_neg (by omega)]
  have hs1j0 : s1.jwts j0 = some rec1 := by
    simp [hs1, Store.updateJwt]
  have hcheck1 : rec1.check now = none := by
    simp [Jwt.check, Jwt.expired, hrec1]
  refine ⟨(make_jwts s1 now rec0.uid).1, (make_jwts s1 now rec0.uid).2,
    h1, ?_, ?_, ?_⟩
  · rw [hpast, hs1j0]
    simp [hrec1]
  · rw [hjti_r, hnext1]
    omega
  · simp [refresh, hdemake, hjti2, hpast, hs1j0, hcheck1]

/-- Witness for C1 at the concrete store `s0`, record `r0`, token `t0`. -/
theorem C1_refresh_rotation_single_use_witness :
    ∃ tks s',
      refresh s0 t0 0 = (.ok (some tks), s') ∧
      (s'.jwts 0).map Jwt.active = some false ∧
      tks.refresh.payload.jti ≠ 0 ∧
      refresh s' t0 0 = (.ok none, s') :=
  C1_refresh_rotation_single_use s0 t0 0 0 r0
    (by
      intro i hi
      simp only [s0] at hi ⊢
      have hne : ¬i = 0 := by omega
      simp [hne])
    rfl rfl rfl rfl (by decide) rfl rfl (by decide)

end ChatBackend
